import Mathlib

/-!
Shallow embedding of the double-entry ledger core of the repository
(`app/models/models.py`, `app/models/schemas.py`, `app/routers/banking.py`,
`app/utils.py`), together with theorems settling the specification claims.

The database session is modelled as an explicit record of rows; each endpoint
becomes a function from the database value (plus its request parameters) to
either an error or the committed database value and the created row.
Autoincrement primary keys are modelled as `length + 1`.
-/

/-- `EntryType` enum from `app/models/models.py`. -/
inductive EntryType
  | DEBIT
  | CREDIT
deriving DecidableEq, Repr

/-- `TransactionType` enum from `app/models/models.py`. -/
inductive TransactionType
  | DEPOSIT
  | TRANSFER
  | WITHDRAWAL
deriving DecidableEq, Repr

/-- A `ledger_entries` row (`LedgerEntry` in `app/models/models.py`). -/
structure LedgerEntry where
  id : ℕ
  transaction_id : ℕ
  account_id : ℕ
  entry_type : EntryType
  amount_cents : ℤ
deriving DecidableEq, Repr

/-- A `transactions` row (`Transaction` in `app/models/models.py`). -/
structure Transaction where
  id : ℕ
  transaction_type : TransactionType
  description : String
deriving DecidableEq, Repr

/-- An `accounts` row (`Account` in `app/models/models.py`); the account
number is modelled as its list of characters. -/
structure Account where
  id : ℕ
  account_number : List Char
  customer_id : ℕ
deriving DecidableEq, Repr

/-- The database state seen by the banking router: customer ids plus the
three ledger tables. -/
structure DB where
  customers : List ℕ
  accounts : List Account
  transactions : List Transaction
  entries : List LedgerEntry
deriving DecidableEq, Repr

/-- The empty database. -/
def emptyDB : DB := ⟨[], [], [], []⟩

/-- The loop body of the `Account.balance_cents` property: credit entries are
added, debit entries subtracted. -/
def balanceStep (balance : ℤ) (entry : LedgerEntry) : ℤ :=
  if entry.entry_type = EntryType.CREDIT then balance + entry.amount_cents
  else balance - entry.amount_cents

/-- `Account.balance_cents` applied to a list of ledger entries: start from 0
and fold `balanceStep` over the entries (`app/models/models.py`). -/
def balanceFold (entries : List LedgerEntry) : ℤ :=
  entries.foldl balanceStep 0

/-- `Account.balance_cents` for the account with the given id: fold over the
account's related ledger entries. -/
def DB.balance_cents (db : DB) (account_id : ℕ) : ℤ :=
  balanceFold (db.entries.filter (fun e => e.account_id = account_id))

/-- Errors raised by the banking endpoints (HTTP 404 / 400 in the source). -/
inductive ApiError
  | NotFound
  | InsufficientFunds
deriving DecidableEq, Repr

/-- `create_account` from `app/routers/banking.py`: verify the customer
exists, insert the account, a DEPOSIT transaction and one CREDIT ledger entry
for the initial deposit, and commit.  The account number and the initial
deposit in cents are computed by collaborators (`generate_account_number`,
`AccountCreate.get_initial_deposit_cents`) and are taken as arguments, as is
the generated description string. -/
def create_account (db : DB) (customer_id : ℕ) (initial_deposit_cents : ℤ)
    (account_number : List Char) (description : String) :
    Except ApiError (DB × Account) :=
  if db.customers.contains customer_id then
    let db_account : Account :=
      { id := db.accounts.length + 1, account_number, customer_id }
    let transaction : Transaction :=
      { id := db.transactions.length + 1
        transaction_type := TransactionType.DEPOSIT
        description }
    let ledger_entry : LedgerEntry :=
      { id := db.entries.length + 1
        transaction_id := transaction.id
        account_id := db_account.id
        entry_type := EntryType.CREDIT
        amount_cents := initial_deposit_cents }
    Except.ok ({ db with
                  accounts := db.accounts ++ [db_account]
                  transactions := db.transactions ++ [transaction]
                  entries := db.entries ++ [ledger_entry] }, db_account)
  else
    Except.error ApiError.NotFound

/-- `create_transfer` from `app/routers/banking.py`: look up both accounts,
reject with 404 if either is missing, reject with "Insufficient funds" when
the source balance is strictly below the amount, otherwise commit a TRANSFER
transaction with a DEBIT entry on the source and a CREDIT entry on the
destination, both for `amount_cents`. -/
def create_transfer (db : DB) (from_account_id to_account_id : ℕ)
    (amount_cents : ℤ) (description : String) :
    Except ApiError (DB × Transaction) :=
  match db.accounts.find? (fun a => a.id = from_account_id),
        db.accounts.find? (fun a => a.id = to_account_id) with
  | some from_account, some to_account =>
    if db.balance_cents from_account.id < amount_cents then
      Except.error ApiError.InsufficientFunds
    else
      let transaction : Transaction :=
        { id := db.transactions.length + 1
          transaction_type := TransactionType.TRANSFER
          description }
      let debit_entry : LedgerEntry :=
        { id := db.entries.length + 1
          transaction_id := transaction.id
          account_id := from_account.id
          entry_type := EntryType.DEBIT
          amount_cents }
      let credit_entry : LedgerEntry :=
        { id := db.entries.length + 2
          transaction_id := transaction.id
          account_id := to_account.id
          entry_type := EntryType.CREDIT
          amount_cents }
      Except.ok ({ db with
                    transactions := db.transactions ++ [transaction]
                    entries := db.entries ++ [debit_entry, credit_entry] },
                 transaction)
  | _, _ => Except.error ApiError.NotFound

/-- Database state after the `create_transfer` endpoint finishes: on success
the committed state, on an HTTP error the unchanged state (the exception is
raised before any row is added). -/
def transfer_endpoint_state (db : DB) (from_account_id to_account_id : ℕ)
    (amount_cents : ℤ) (description : String) : DB :=
  match create_transfer db from_account_id to_account_id amount_cents
      description with
  | Except.ok (db', _) => db'
  | Except.error _ => db

/-- `get_balance` from `app/routers/banking.py`, at the cents level
(`balanceOf` in the spec): 404 when the account does not exist, otherwise the
derived balance of the account. -/
def get_balance (db : DB) (account_id : ℕ) : Except ApiError ℤ :=
  match db.accounts.find? (fun a => a.id = account_id) with
  | some account => Except.ok (db.balance_cents account.id)
  | none => Except.error ApiError.NotFound

/-- Modelled from the spec: the §3 balance formula,
Balance(account) = Σ CREDIT.amount_cents − Σ DEBIT.amount_cents over all
ledger entries of the account.  Used to compare `get_balance` against the
spec's words. -/
def specBalance (db : DB) (account_id : ℕ) : ℤ :=
  ((db.entries.filter
      (fun e => e.account_id = account_id ∧ e.entry_type = EntryType.CREDIT)
    ).map (fun e => e.amount_cents)).sum
  - ((db.entries.filter
      (fun e => e.account_id = account_id ∧ e.entry_type = EntryType.DEBIT)
    ).map (fun e => e.amount_cents)).sum

/-- Signed value of a ledger entry: CREDIT positive, DEBIT negative. -/
def entrySigned (e : LedgerEntry) : ℤ :=
  if e.entry_type = EntryType.CREDIT then e.amount_cents else -e.amount_cents

/-- Signed sum of the ledger entries belonging to a transaction id. -/
def signedSum (db : DB) (transaction_id : ℕ) : ℤ :=
  ((db.entries.filter (fun e => e.transaction_id = transaction_id)).map
    entrySigned).sum

/-- Well-formedness: every ledger entry refers to an already-inserted
transaction (transaction ids are `1 .. transactions.length`). -/
def DB.WF (db : DB) : Prop :=
  ∀ e ∈ db.entries, e.transaction_id ≤ db.transactions.length

instance (db : DB) : Decidable db.WF := by
  unfold DB.WF
  infer_instance

/- ### Balance computation lemmas -/

theorem balanceFold_from (entries : List LedgerEntry) (b : ℤ) :
    entries.foldl balanceStep b = b + (entries.map entrySigned).sum := by
  induction entries generalizing b with
  | nil => simp
  | cons e rest ih =>
      simp only [List.foldl_cons, List.map_cons, List.sum_cons, ih]
      unfold balanceStep entrySigned
      split <;> ring

theorem balanceFold_eq_sum (entries : List LedgerEntry) :
    balanceFold entries = (entries.map entrySigned).sum := by
  simpa using balanceFold_from entries 0

theorem balance_cents_eq_sum (db : DB) (account_id : ℕ) :
    db.balance_cents account_id
      = ((db.entries.filter (fun e => e.account_id = account_id)).map
          entrySigned).sum := by
  unfold DB.balance_cents
  exact balanceFold_eq_sum _

/-- Balance over a list of entries (the list-level form of
`DB.balance_cents`). -/
def balanceList (entries : List LedgerEntry) (account_id : ℕ) : ℤ :=
  ((entries.filter (fun e => e.account_id = account_id)).map entrySigned).sum

theorem balance_cents_eq_balanceList (db : DB) (account_id : ℕ) :
    db.balance_cents account_id = balanceList db.entries account_id :=
  balance_cents_eq_sum db account_id

theorem balanceList_append (l1 l2 : List LedgerEntry) (account_id : ℕ) :
    balanceList (l1 ++ l2) account_id
      = balanceList l1 account_id + balanceList l2 account_id := by
  unfold balanceList
  simp [List.filter_append]

theorem balanceList_singleton (e : LedgerEntry) (account_id : ℕ) :
    balanceList [e] account_id
      = if e.account_id = account_id then entrySigned e else 0 := by
  unfold balanceList
  by_cases h : e.account_id = account_id <;> simp [List.filter, h]

theorem balanceList_spec (entries : List LedgerEntry) (account_id : ℕ) :
    balanceList entries account_id
      = ((entries.filter
            (fun e => e.account_id = account_id
              ∧ e.entry_type = EntryType.CREDIT)).map
          (fun e => e.amount_cents)).sum
        - ((entries.filter
            (fun e => e.account_id = account_id
              ∧ e.entry_type = EntryType.DEBIT)).map
          (fun e => e.amount_cents)).sum := by
  induction entries with
  | nil => simp [balanceList]
  | cons e rest ih =>
      unfold balanceList at ih ⊢
      by_cases ha : e.account_id = account_id
      · cases ht : e.entry_type
        · simp only [List.filter_cons, ha, ht]
          simp [entrySigned, ht, ih]
          ring
        · simp only [List.filter_cons, ha, ht]
          simp [entrySigned, ht, ih]
          ring
      · simp only [List.filter_cons, ha]
        simp [ha, ih]

theorem specBalance_eq_balance (db : DB) (account_id : ℕ) :
    specBalance db account_id = db.balance_cents account_id := by
  rw [balance_cents_eq_balanceList, balanceList_spec]
  rfl

/- ### Claim C3 -/

/-- Claim C3: for every existing account, `get_balance` (`balanceOf`) returns
the sum over that account's ledger entries of `amount_cents`, CREDIT entries
added and DEBIT entries subtracted, i.e. the spec's §3 formula; for an id
with no account it fails with NotFound. -/
theorem claim_C3_balance_derivation (db : DB) (account_id : ℕ) :
    ((db.accounts.find? (fun a => a.id = account_id)).isSome →
      get_balance db account_id = Except.ok (specBalance db account_id))
    ∧ (db.accounts.find? (fun a => a.id = account_id) = none →
      get_balance db account_id = Except.error ApiError.NotFound) := by
  constructor
  · intro hsome
    match hfind : db.accounts.find? (fun a => a.id = account_id) with
    | none => rw [hfind] at hsome; simp at hsome
    | some account =>
        have hid : account.id = account_id := by
          have := List.find?_some hfind
          simpa using this
        unfold get_balance
        rw [hfind]
        simp [hid, specBalance_eq_balance]
  · intro hnone
    unfold get_balance
    rw [hnone]

/-- Concrete database used by several witnesses: one customer, two accounts,
account 1 holds 10000 cents and account 2 holds 500 cents. -/
def dbW : DB :=
  { customers := [1]
    accounts := [⟨1, [], 1⟩, ⟨2, [], 1⟩]
    transactions := [⟨1, TransactionType.DEPOSIT, ""⟩,
                     ⟨2, TransactionType.DEPOSIT, ""⟩]
    entries := [⟨1, 1, 1, EntryType.CREDIT, 10000⟩,
                ⟨2, 2, 2, EntryType.CREDIT, 500⟩] }

/- ### Characterization of a committed transfer -/

theorem create_transfer_ok (db : DB) (f t : ℕ) (amt : ℤ) (d : String)
    (db' : DB) (txn : Transaction)
    (hok : create_transfer db f t amt d = Except.ok (db', txn)) :
    ∃ fa ta, db.accounts.find? (fun a => a.id = f) = some fa
      ∧ db.accounts.find? (fun a => a.id = t) = some ta
      ∧ fa.id = f ∧ ta.id = t
      ∧ ¬ db.balance_cents f < amt
      ∧ txn = ⟨db.transactions.length + 1, TransactionType.TRANSFER, d⟩
      ∧ db' = { db with
          transactions := db.transactions ++ [txn]
          entries := db.entries ++
            [⟨db.entries.length + 1, txn.id, f, EntryType.DEBIT, amt⟩,
             ⟨db.entries.length + 2, txn.id, t, EntryType.CREDIT, amt⟩] } := by
  unfold create_transfer at hok
  split at hok
  case _ fa ta hf ht =>
    have hfa : fa.id = f := by simpa using List.find?_some hf
    have hta : ta.id = t := by simpa using List.find?_some ht
    split at hok
    · cases hok
    · next hlt =>
        rw [hfa] at hlt
        refine ⟨fa, ta, hf, ht, hfa, hta, hlt, ?_, ?_⟩
        · cases hok
          rfl
        · cases hok
          rw [hfa, hta]
  case _ h => cases hok

/- ### Claim C1 -/

/-- Claim C1: every transaction committed by `create_transfer` has type
TRANSFER and exactly two ledger entries, a DEBIT on the source account and a
CREDIT on the destination account, both with the transfer's `amount_cents`,
so the signed sum of its entries is zero. -/
theorem claim_C1_transfer_double_entry (db : DB) (f t : ℕ) (amt : ℤ)
    (d : String) (db' : DB) (txn : Transaction) (hwf : db.WF)
    (hok : create_transfer db f t amt d = Except.ok (db', txn)) :
    txn.transaction_type = TransactionType.TRANSFER
    ∧ (∃ de ce,
        db'.entries.filter (fun e => e.transaction_id = txn.id) = [de, ce]
        ∧ de.entry_type = EntryType.DEBIT ∧ de.account_id = f
        ∧ de.amount_cents = amt
        ∧ ce.entry_type = EntryType.CREDIT ∧ ce.account_id = t
        ∧ ce.amount_cents = amt)
    ∧ signedSum db' txn.id = 0 := by
  obtain ⟨fa, ta, hf, ht, hfa, hta, hge, htxn, hdb⟩ :=
    create_transfer_ok db f t amt d db' txn hok
  have htid : txn.id = db.transactions.length + 1 := by rw [htxn]
  have hfilter_old :
      db.entries.filter (fun e => e.transaction_id = txn.id) = [] := by
    rw [List.filter_eq_nil_iff]
    intro e he
    have hle := hwf e he
    simp only [decide_eq_true_eq]
    omega
  refine ⟨by rw [htxn], ?_, ?_⟩
  · refine ⟨⟨db.entries.length + 1, txn.id, f, EntryType.DEBIT, amt⟩,
      ⟨db.entries.length + 2, txn.id, t, EntryType.CREDIT, amt⟩, ?_,
      rfl, rfl, rfl, rfl, rfl, rfl⟩
    rw [hdb]
    simp only [List.filter_append, hfilter_old, List.nil_append]
    simp [List.filter]
  · unfold signedSum
    rw [hdb]
    simp only [List.filter_append, hfilter_old, List.nil_append]
    simp [List.filter, entrySigned]

/-- Witness for claim C1: a concrete well-formed database and a concrete
committed transfer of 2500 cents from account 1 to account 2. -/
theorem claim_C1_witness :
    dbW.WF
    ∧ (∃ db' txn, create_transfer dbW 1 2 2500 "" = Except.ok (db', txn)
        ∧ txn.transaction_type = TransactionType.TRANSFER
        ∧ (∃ de ce,
            db'.entries.filter (fun e => e.transaction_id = txn.id) = [de, ce]
            ∧ de.entry_type = EntryType.DEBIT ∧ de.account_id = 1
            ∧ de.amount_cents = 2500
            ∧ ce.entry_type = EntryType.CREDIT ∧ ce.account_id = 2
            ∧ ce.amount_cents = 2500)
        ∧ signedSum db' txn.id = 0) := by
  have hwf : dbW.WF := by decide
  refine ⟨hwf, ?_⟩
  match hok : create_transfer dbW 1 2 2500 "" with
  | Except.ok (db', txn) =>
      exact ⟨db', txn, rfl,
        claim_C1_transfer_double_entry dbW 1 2 2500 "" db' txn hwf hok⟩
  | Except.error e => cases hok

/- ### Claim C2 -/

/-- Claim C2: for a transfer between two existing accounts, `create_transfer`
rejects with InsufficientFunds exactly when the source balance is strictly
below the amount, and a rejected transfer leaves the database (hence both
balances) unchanged. -/
theorem claim_C2_insufficient_funds (db : DB) (f t : ℕ) (amt : ℤ)
    (d : String) (fa ta : Account)
    (hf : db.accounts.find? (fun a => a.id = f) = some fa)
    (ht : db.accounts.find? (fun a => a.id = t) = some ta) :
    (create_transfer db f t amt d = Except.error ApiError.InsufficientFunds
      ↔ db.balance_cents f < amt)
    ∧ (db.balance_cents f < amt →
        transfer_endpoint_state db f t amt d = db
        ∧ (transfer_endpoint_state db f t amt d).balance_cents f
            = db.balance_cents f
        ∧ (transfer_endpoint_state db f t amt d).balance_cents t
            = db.balance_cents t) := by
  have hfa : fa.id = f := by simpa using List.find?_some hf
  have herr : db.balance_cents f < amt →
      create_transfer db f t amt d
        = Except.error ApiError.InsufficientFunds := by
    intro hlt
    unfold create_transfer
    rw [hf, ht]
    simp [hfa, hlt]
  constructor
  · constructor
    · intro heq
      by_contra hge
      unfold create_transfer at heq
      rw [hf, ht] at heq
      simp [hfa, hge] at heq
    · exact herr
  · intro hlt
    have h := herr hlt
    unfold transfer_endpoint_state
    rw [h]
    exact ⟨rfl, rfl, rfl⟩

/-- Witness for claim C2 at a concrete database: both accounts exist, and a
transfer of 20000 cents from account 1 (balance 10000) is rejected exactly
per the balance test, leaving the state unchanged. -/
theorem claim_C2_witness :
    dbW.accounts.find? (fun a => a.id = 1) = some ⟨1, [], 1⟩
    ∧ dbW.accounts.find? (fun a => a.id = 2) = some ⟨2, [], 1⟩
    ∧ (create_transfer dbW 1 2 20000 ""
        = Except.error ApiError.InsufficientFunds ↔
          dbW.balance_cents 1 < 20000)
    ∧ transfer_endpoint_state dbW 1 2 20000 "" = dbW := by
  have h := claim_C2_insufficient_funds dbW 1 2 20000 "" ⟨1, [], 1⟩ ⟨2, [], 1⟩
    (by decide) (by decide)
  exact ⟨by decide, by decide, h.1, (h.2 (by decide)).1⟩

/-- Witness for claim C3 at a concrete database: account 1 exists and its
balance is returned per the spec formula; account 7 does not exist and yields
NotFound. -/
theorem claim_C3_witness :
    ((dbW.accounts.find? (fun a => a.id = 1)).isSome
      ∧ get_balance dbW 1 = Except.ok (specBalance dbW 1)
      ∧ specBalance dbW 1 = 10000)
    ∧ (dbW.accounts.find? (fun a => a.id = 7) = none
      ∧ get_balance dbW 7 = Except.error ApiError.NotFound) :=
  ⟨⟨by decide, (claim_C3_balance_derivation dbW 1).1 (by decide), by decide⟩,
   ⟨by decide, (claim_C3_balance_derivation dbW 7).2 (by decide)⟩⟩

/- ### Balance change lemmas for the two write operations -/

theorem create_transfer_commits (db : DB) (f t : ℕ) (amt : ℤ) (d : String)
    (fa ta : Account)
    (hf : db.accounts.find? (fun a => a.id = f) = some fa)
    (ht : db.accounts.find? (fun a => a.id = t) = some ta)
    (hge : ¬ db.balance_cents f < amt) :
    ∃ db' txn, create_transfer db f t amt d = Except.ok (db', txn) := by
  have hfa : fa.id = f := by simpa using List.find?_some hf
  unfold create_transfer
  rw [hf, ht]
  simp [hfa, hge]

theorem balance_cents_entries (db : DB) (l : List LedgerEntry) (a : ℕ) :
    DB.balance_cents { db with entries := l } a = balanceList l a :=
  balance_cents_eq_balanceList { db with entries := l } a

theorem transfer_balance_change (db : DB) (f t : ℕ) (amt : ℤ) (d : String)
    (db' : DB) (txn : Transaction)
    (hok : create_transfer db f t amt d = Except.ok (db', txn)) (a : ℕ) :
    db'.balance_cents a
      = db.balance_cents a + (if t = a then amt else 0)
        - (if f = a then amt else 0) := by
  obtain ⟨fa, ta, hf, ht, hfa, hta, hge, htxn, hdb⟩ :=
    create_transfer_ok db f t amt d db' txn hok
  rw [hdb, balance_cents_entries, balance_cents_eq_balanceList]
  rw [show (⟨db.entries.length + 1, txn.id, f, EntryType.DEBIT, amt⟩ ::
        [⟨db.entries.length + 2, txn.id, t, EntryType.CREDIT, amt⟩]
        : List LedgerEntry)
      = [⟨db.entries.length + 1, txn.id, f, EntryType.DEBIT, amt⟩]
        ++ [⟨db.entries.length + 2, txn.id, t, EntryType.CREDIT, amt⟩]
    from rfl]
  rw [← List.append_assoc, balanceList_append, balanceList_append,
    balanceList_singleton, balanceList_singleton]
  simp only [entrySigned]
  split_ifs <;> (simp_all; try ring)

theorem create_account_ok (db : DB) (c : ℕ) (cents : ℤ) (num : List Char)
    (d : String) (db' : DB) (acct : Account)
    (hok : create_account db c cents num d = Except.ok (db', acct)) :
    db.customers.contains c
    ∧ acct = ⟨db.accounts.length + 1, num, c⟩
    ∧ db' = { db with
        accounts := db.accounts ++ [acct]
        transactions := db.transactions ++
          [⟨db.transactions.length + 1, TransactionType.DEPOSIT, d⟩]
        entries := db.entries ++
          [⟨db.entries.length + 1, db.transactions.length + 1, acct.id,
            EntryType.CREDIT, cents⟩] } := by
  unfold create_account at hok
  split at hok
  · next hc =>
      cases hok
      exact ⟨hc, rfl, rfl⟩
  · cases hok

theorem deposit_balance_change (db : DB) (c : ℕ) (cents : ℤ)
    (num : List Char) (d : String) (db' : DB) (acct : Account)
    (hok : create_account db c cents num d = Except.ok (db', acct)) (a : ℕ) :
    db'.balance_cents a
      = db.balance_cents a + (if acct.id = a then cents else 0) := by
  obtain ⟨hc, hacct, hdb⟩ := create_account_ok db c cents num d db' acct hok
  rw [hdb, balance_cents_entries, balance_cents_eq_balanceList,
    balanceList_append, balanceList_singleton]
  simp only [entrySigned]
  split_ifs <;> simp_all

/- ### Claim C5 -/

/-- Committed database of the C5 counterexample: `dbW` after a self-transfer
of the whole 10000-cent balance of account 1. -/
def dbC5 : DB :=
  { customers := [1]
    accounts := [⟨1, [], 1⟩, ⟨2, [], 1⟩]
    transactions := [⟨1, TransactionType.DEPOSIT, ""⟩,
                     ⟨2, TransactionType.DEPOSIT, ""⟩,
                     ⟨3, TransactionType.TRANSFER, ""⟩]
    entries := [⟨1, 1, 1, EntryType.CREDIT, 10000⟩,
                ⟨2, 2, 2, EntryType.CREDIT, 500⟩,
                ⟨3, 3, 1, EntryType.DEBIT, 10000⟩,
                ⟨4, 3, 1, EntryType.CREDIT, 10000⟩] }

/-- Counterexample to claim C5 as stated: a self-transfer whose amount equals
the source balance is committed by `create_transfer`, yet the source balance
afterwards is 10000 cents, not 0. -/
theorem claim_C5_counterexample :
    dbW.balance_cents 1 = 10000
    ∧ create_transfer dbW 1 1 10000 ""
        = Except.ok (dbC5, ⟨3, TransactionType.TRANSFER, ""⟩)
    ∧ dbC5.balance_cents 1 = 10000
    ∧ ¬ dbC5.balance_cents 1 = 0 :=
  ⟨by decide, by rfl, by decide, by decide⟩

/-- Claim C5 as amended: for every transfer between two distinct existing
accounts whose amount in cents equals the source balance, `create_transfer`
commits, and afterwards the source balance is exactly 0. -/
theorem claim_C5_exact_balance_transfer (db : DB) (f t : ℕ) (amt : ℤ)
    (d : String) (fa ta : Account)
    (hf : db.accounts.find? (fun a => a.id = f) = some fa)
    (ht : db.accounts.find? (fun a => a.id = t) = some ta)
    (hne : f ≠ t) (hbal : db.balance_cents f = amt) :
    ∃ db' txn, create_transfer db f t amt d = Except.ok (db', txn)
      ∧ db'.balance_cents f = 0 := by
  have hge : ¬ db.balance_cents f < amt := by rw [hbal]; exact lt_irrefl amt
  obtain ⟨db', txn, hok⟩ := create_transfer_commits db f t amt d fa ta hf ht hge
  refine ⟨db', txn, hok, ?_⟩
  rw [transfer_balance_change db f t amt d db' txn hok f]
  have hto : ¬ t = f := fun h => hne h.symm
  rw [if_neg hto, if_pos rfl, hbal]
  ring

/-- Witness for the amended claim C5: transferring the full 10000-cent
balance of account 1 to the distinct account 2 commits and leaves account 1
at balance 0. -/
theorem claim_C5_witness :
    dbW.accounts.find? (fun a => a.id = 1) = some ⟨1, [], 1⟩
    ∧ dbW.accounts.find? (fun a => a.id = 2) = some ⟨2, [], 1⟩
    ∧ (1 : ℕ) ≠ 2
    ∧ dbW.balance_cents 1 = 10000
    ∧ (∃ db' txn, create_transfer dbW 1 2 10000 "" = Except.ok (db', txn)
        ∧ db'.balance_cents 1 = 0) :=
  ⟨by decide, by decide, by decide, by decide,
    claim_C5_exact_balance_transfer dbW 1 2 10000 "" ⟨1, [], 1⟩ ⟨2, [], 1⟩
      (by decide) (by decide) (by decide) (by decide)⟩

/- ### Claim C10 -/

/-- Claim C10: a self-transfer on an existing account whose balance covers
the amount is accepted by `create_transfer`: it commits a TRANSFER
transaction with one DEBIT and one CREDIT entry, both on that account and
both for the amount, and the account's derived balance is unchanged. -/
theorem claim_C10_self_transfer (db : DB) (a : ℕ) (amt : ℤ) (d : String)
    (acct : Account)
    (hfind : db.accounts.find? (fun x => x.id = a) = some acct)
    (hbal : amt ≤ db.balance_cents a) :
    ∃ db' txn, create_transfer db a a amt d = Except.ok (db', txn)
      ∧ txn.transaction_type = TransactionType.TRANSFER
      ∧ (∃ de ce, db'.entries = db.entries ++ [de, ce]
          ∧ de.transaction_id = txn.id ∧ de.entry_type = EntryType.DEBIT
          ∧ de.account_id = a ∧ de.amount_cents = amt
          ∧ ce.transaction_id = txn.id ∧ ce.entry_type = EntryType.CREDIT
          ∧ ce.account_id = a ∧ ce.amount_cents = amt)
      ∧ db'.balance_cents a = db.balance_cents a := by
  have hge : ¬ db.balance_cents a < amt := not_lt.mpr hbal
  obtain ⟨db', txn, hok⟩ :=
    create_transfer_commits db a a amt d acct acct hfind hfind hge
  obtain ⟨fa, ta, hf, ht, hfa, hta, _, htxn, hdb⟩ :=
    create_transfer_ok db a a amt d db' txn hok
  refine ⟨db', txn, hok, by rw [htxn], ?_, ?_⟩
  · exact ⟨⟨db.entries.length + 1, txn.id, a, EntryType.DEBIT, amt⟩,
      ⟨db.entries.length + 2, txn.id, a, EntryType.CREDIT, amt⟩,
      by rw [hdb], rfl, rfl, rfl, rfl, rfl, rfl, rfl, rfl⟩
  · rw [transfer_balance_change db a a amt d db' txn hok a]
    rw [if_pos rfl]
    ring

/-- Witness for claim C10: a self-transfer of 2500 cents on account 1 of the
concrete database (balance 10000) commits and leaves the balance at 10000. -/
theorem claim_C10_witness :
    dbW.accounts.find? (fun x => x.id = 1) = some ⟨1, [], 1⟩
    ∧ (2500 : ℤ) ≤ dbW.balance_cents 1
    ∧ (∃ db' txn, create_transfer dbW 1 1 2500 "" = Except.ok (db', txn)
        ∧ txn.transaction_type = TransactionType.TRANSFER
        ∧ (∃ de ce, db'.entries = dbW.entries ++ [de, ce]
            ∧ de.transaction_id = txn.id ∧ de.entry_type = EntryType.DEBIT
            ∧ de.account_id = 1 ∧ de.amount_cents = 2500
            ∧ ce.transaction_id = txn.id ∧ ce.entry_type = EntryType.CREDIT
            ∧ ce.account_id = 1 ∧ ce.amount_cents = 2500)
        ∧ db'.balance_cents 1 = dbW.balance_cents 1) :=
  ⟨by decide, by decide,
    claim_C10_self_transfer dbW 1 2500 "" ⟨1, [], 1⟩ (by decide) (by decide)⟩

/- ### Claim C9 -/

/-- Database states reachable from the empty store through the write
endpoints: inserting a customer (`create_customer`, which writes no ledger
rows), `create_account` with a nonnegative initial deposit in cents (the
schema accepts only positive dollar amounts and `int(x * 100)` of a positive
float is nonnegative), and `create_transfer` with a nonnegative amount in
cents. -/
inductive Reachable : DB → Prop
  | empty : Reachable emptyDB
  | customer (db : DB) (c : ℕ) : Reachable db →
      Reachable { db with customers := db.customers ++ [c] }
  | account (db : DB) (c : ℕ) (cents : ℤ) (num : List Char) (d : String)
      (db' : DB) (acct : Account) : Reachable db → 0 ≤ cents →
      create_account db c cents num d = Except.ok (db', acct) →
      Reachable db'
  | transfer (db : DB) (f t : ℕ) (amt : ℤ) (d : String) (db' : DB)
      (txn : Transaction) : Reachable db → 0 ≤ amt →
      create_transfer db f t amt d = Except.ok (db', txn) →
      Reachable db'

/-- Claim C9: in every state reachable from the empty store by the write
operations, every account's derived balance is nonnegative. -/
theorem claim_C9_balances_nonneg (db : DB) (hreach : Reachable db) (a : ℕ) :
    0 ≤ db.balance_cents a := by
  induction hreach generalizing a with
  | empty => simp [emptyDB, DB.balance_cents, balanceFold]
  | customer db c _ ih => exact ih a
  | account db c cents num d db' acct _ hcents hok ih =>
      rw [deposit_balance_change db c cents num d db' acct hok a]
      have h := ih a
      split_ifs <;> omega
  | transfer db f t amt d db' txn _ hamt hok ih =>
      rw [transfer_balance_change db f t amt d db' txn hok a]
      obtain ⟨fa, ta, hf, ht, hfa, hta, hge, _, _⟩ :=
        create_transfer_ok db f t amt d db' txn hok
      have ha := ih a
      have hfrom := ih f
      by_cases hfa2 : f = a
      · subst hfa2
        have : amt ≤ db.balance_cents f := not_lt.mp hge
        split_ifs <;> omega
      · split_ifs <;> omega

/-- The state reached by inserting customer 1 and creating an account with a
10000-cent initial deposit. -/
def dbR : DB :=
  { customers := [1]
    accounts := [⟨1, [], 1⟩]
    transactions := [⟨1, TransactionType.DEPOSIT, ""⟩]
    entries := [⟨1, 1, 1, EntryType.CREDIT, 10000⟩] }

/-- Witness for claim C9: `dbR` is reachable (empty store, then a customer,
then an account with a 10000-cent deposit) and its account balance is
nonnegative. -/
theorem claim_C9_witness : Reachable dbR ∧ 0 ≤ dbR.balance_cents 1 := by
  have hr : Reachable dbR :=
    Reachable.account ⟨[1], [], [], []⟩ 1 10000 [] "" dbR ⟨1, [], 1⟩
      (Reachable.customer emptyDB 1 Reachable.empty) (by norm_num) (by rfl)
  exact ⟨hr, claim_C9_balances_nonneg dbR hr 1⟩

/- ### Sequence generator (`app/utils.py`, `get_daily_sequence`) -/

/-- The `daily_account_sequences` table: one (date, sequence) row per day. -/
def SeqTable := List (String × ℕ)

/-- Row lookup by date key (the `filter(... date == date).first()` query). -/
def lookupSeq : SeqTable → String → Option ℕ
  | [], _ => none
  | (d, s) :: rest, date => if d = date then some s else lookupSeq rest date

/-- In-place update of the row for a date key (`sequence.sequence += 1`
mutates the selected row). -/
def setSeq : SeqTable → String → ℕ → SeqTable
  | [], _, _ => []
  | (d, s) :: rest, date, v =>
      if d = date then (d, v) :: rest else (d, s) :: setSeq rest date v

/-- `get_daily_sequence` from `app/utils.py`: select the row for the date;
if absent, insert a row with sequence 0; then increment the row's sequence
and return the incremented value. -/
def get_daily_sequence (tbl : SeqTable) (date : String) : SeqTable × ℕ :=
  let found : SeqTable × ℕ :=
    match lookupSeq tbl date with
    | some s => (tbl, s)
    | none => ((date, 0) :: tbl, 0)
  let current_sequence := found.2 + 1
  (setSeq found.1 date current_sequence, current_sequence)

/-- Outputs of `n` successive `get_daily_sequence` calls for one date key,
threading the table through the calls. -/
def seqOutputs (tbl : SeqTable) (date : String) : ℕ → List ℕ
  | 0 => []
  | Nat.succ n =>
      (get_daily_sequence tbl date).2
        :: seqOutputs (get_daily_sequence tbl date).1 date n

theorem lookupSeq_setSeq (tbl : SeqTable) (date : String) (s v : ℕ)
    (h : lookupSeq tbl date = some s) :
    lookupSeq (setSeq tbl date v) date = some v := by
  induction tbl with
  | nil => cases h
  | cons p rest ih =>
      by_cases hd : p.1 = date
      · simp [lookupSeq, setSeq, hd]
      · simp [lookupSeq, setSeq, hd] at h ⊢
        exact ih h

theorem get_daily_sequence_found (tbl : SeqTable) (date : String) (s : ℕ)
    (h : lookupSeq tbl date = some s) :
    (get_daily_sequence tbl date).2 = s + 1
    ∧ lookupSeq (get_daily_sequence tbl date).1 date = some (s + 1) := by
  unfold get_daily_sequence
  rw [h]
  exact ⟨rfl, lookupSeq_setSeq tbl date s (s + 1) h⟩

theorem get_daily_sequence_fresh (tbl : SeqTable) (date : String)
    (h : lookupSeq tbl date = none) :
    (get_daily_sequence tbl date).2 = 1
    ∧ lookupSeq (get_daily_sequence tbl date).1 date = some 1 := by
  unfold get_daily_sequence
  rw [h]
  refine ⟨rfl, ?_⟩
  have hlook : lookupSeq ((date, 0) :: tbl) date = some 0 := by
    simp [lookupSeq]
  simpa using lookupSeq_setSeq ((date, 0) :: tbl) date 0 1 hlook

theorem seqOutputs_from (date : String) (n : ℕ) :
    ∀ (tbl : SeqTable) (s : ℕ), lookupSeq tbl date = some s →
      seqOutputs tbl date n = (List.range n).map (fun i => s + 1 + i) := by
  induction n with
  | zero => intro tbl s _; rfl
  | succ n ih =>
      intro tbl s h
      obtain ⟨hval, hnext⟩ := get_daily_sequence_found tbl date s h
      unfold seqOutputs
      rw [hval, ih (get_daily_sequence tbl date).1 (s + 1) hnext]
      rw [List.range_succ_eq_map]
      simp only [List.map_cons, List.map_map]
      refine List.cons_eq_cons.mpr ⟨by omega, ?_⟩
      apply List.map_congr_left
      intro i _
      simp [Function.comp]
      omega

/- ### Claim C6 -/

/-- Claim C6: for a fixed date key, successive calls to `get_daily_sequence`
return the contiguous run 1, 2, 3, … (no duplicates, no gaps); the first call
for a date with no counter row inserts the row (created with sequence 0 and
advanced in the same call) and returns 1. -/
theorem claim_C6_daily_sequence (tbl : SeqTable) (date : String) (n : ℕ)
    (h : lookupSeq tbl date = none) :
    seqOutputs tbl date n = (List.range n).map (fun i => i + 1)
    ∧ (get_daily_sequence tbl date).2 = 1
    ∧ lookupSeq (get_daily_sequence tbl date).1 date = some 1 := by
  obtain ⟨hval, hnext⟩ := get_daily_sequence_fresh tbl date h
  refine ⟨?_, hval, hnext⟩
  cases n with
  | zero => rfl
  | succ n =>
      unfold seqOutputs
      rw [hval, seqOutputs_from date n (get_daily_sequence tbl date).1 1 hnext]
      rw [List.range_succ_eq_map]
      simp only [List.map_cons, List.map_map]
      refine List.cons_eq_cons.mpr ⟨by omega, ?_⟩
      apply List.map_congr_left
      intro i _
      simp [Function.comp]
      omega

/-- Witness for claim C6: three calls on an empty table return 1, 2, 3. -/
theorem claim_C6_witness :
    lookupSeq ([] : SeqTable) "20231215" = none
    ∧ seqOutputs ([] : SeqTable) "20231215" 3
        = (List.range 3).map (fun i => i + 1)
    ∧ (get_daily_sequence ([] : SeqTable) "20231215").2 = 1
    ∧ lookupSeq (get_daily_sequence ([] : SeqTable) "20231215").1 "20231215"
        = some 1 :=
  ⟨rfl, (claim_C6_daily_sequence [] "20231215" 3 rfl).1,
    (claim_C6_daily_sequence [] "20231215" 3 rfl).2.1,
    (claim_C6_daily_sequence [] "20231215" 3 rfl).2.2⟩

/- ### Account number allocator (`app/utils.py`, `generate_account_number`) -/

/-- The decimal digit characters, `string.digits` in Python. -/
def digitChars : List Char :=
  ['0', '1', '2', '3', '4', '5', '6', '7', '8', '9']

/-- `string.ascii_uppercase` in Python. -/
def ascii_uppercase : List Char :=
  ['A', 'B', 'C', 'D', 'E', 'F', 'G', 'H', 'I', 'J', 'K', 'L', 'M',
   'N', 'O', 'P', 'Q', 'R', 'S', 'T', 'U', 'V', 'W', 'X', 'Y', 'Z']

/-- The character for a decimal digit value. -/
def digitChar (n : ℕ) : Char := Char.ofNat (48 + n)

/-- Decimal digit characters of `n`, most significant first; fuel-bounded
recursion (10 digits of fuel cover every value the allocator can see). -/
def natDigitsAux : ℕ → ℕ → List Char
  | 0, _ => []
  | Nat.succ fuel, n =>
      if n = 0 then []
      else natDigitsAux fuel (n / 10) ++ [digitChar (n % 10)]

/-- Decimal representation of `n`, as Python's `str`/`format` renders it. -/
def natDigits (n : ℕ) : List Char :=
  if n = 0 then ['0'] else natDigitsAux 10 n

/-- Python's `f"{sequence:05d}"`: left-pad the decimal representation with
zeros to width 5 (longer representations are kept whole). -/
def pad5 (n : ℕ) : List Char :=
  List.replicate (5 - (natDigits n).length) '0' ++ natDigits n

/-- `generate_account_number` from `app/utils.py`: current date (formatted
`YYYYMMDD` by `time.strftime`, taken as an argument), then the daily sequence
zero-padded to 5 digits, then the 3 characters drawn by `random.choices` from
`string.ascii_uppercase + string.digits` (taken as an argument). -/
def generate_account_number (current_date : List Char) (sequence : ℕ)
    (random_chars : List Char) : List Char :=
  current_date ++ pad5 sequence ++ random_chars

theorem natDigitsAux_length (fuel : ℕ) :
    ∀ n k, n < 10 ^ k → k ≤ fuel → (natDigitsAux fuel n).length ≤ k := by
  induction fuel with
  | zero => intro n k _ _; simp [natDigitsAux]
  | succ fuel ih =>
      intro n k hn hk
      unfold natDigitsAux
      split
      · simp
      · next hne =>
          have hk0 : k ≠ 0 := by
            intro h0
            rw [h0] at hn
            simp at hn
            exact hne hn
          obtain ⟨k', rfl⟩ : ∃ k', k = k' + 1 :=
            ⟨k - 1, by omega⟩
          have hdiv : n / 10 < 10 ^ k' := by
            rw [Nat.div_lt_iff_lt_mul (by norm_num)]
            calc n < 10 ^ (k' + 1) := hn
            _ = 10 ^ k' * 10 := by ring
          have := ih (n / 10) k' hdiv (by omega)
          simp only [List.length_append, List.length_cons, List.length_nil]
          omega

theorem digitChar_mem (m : ℕ) (h : m < 10) : digitChar m ∈ digitChars := by
  interval_cases m <;> decide

theorem natDigitsAux_mem (fuel : ℕ) :
    ∀ n c, c ∈ natDigitsAux fuel n → c ∈ digitChars := by
  induction fuel with
  | zero => intro n c h; simp [natDigitsAux] at h
  | succ fuel ih =>
      intro n c h
      unfold natDigitsAux at h
      split at h
      · simp at h
      · rw [List.mem_append] at h
        rcases h with h | h
        · exact ih (n / 10) c h
        · simp at h
          rw [h]
          exact digitChar_mem (n % 10) (Nat.mod_lt n (by norm_num))

theorem natDigits_length (n : ℕ) (h : n ≤ 99999) :
    (natDigits n).length ≤ 5 := by
  unfold natDigits
  split
  · simp
  · exact natDigitsAux_length 10 n 5 (by omega) (by omega)

theorem natDigits_mem (n : ℕ) (c : Char) (h : c ∈ natDigits n) :
    c ∈ digitChars := by
  unfold natDigits at h
  split at h
  · simp at h
    rw [h]
    decide
  · exact natDigitsAux_mem 10 n c h

theorem pad5_length (n : ℕ) (h : n ≤ 99999) : (pad5 n).length = 5 := by
  have := natDigits_length n h
  unfold pad5
  simp only [List.length_append, List.length_replicate]
  omega

theorem pad5_mem (n : ℕ) (c : Char) (h : c ∈ pad5 n) : c ∈ digitChars := by
  unfold pad5 at h
  rw [List.mem_append] at h
  rcases h with h | h
  · rw [List.eq_of_mem_replicate h]
    decide
  · exact natDigits_mem n c h

/- ### Claim C7 -/

/-- Claim C7: every account number produced by the allocator is exactly 16
characters: the 8-digit current date, then the daily sequence zero-padded to
exactly 5 digits (for sequence values 1–99999), then the 3 random characters,
each drawn from uppercase letters and digits. -/
theorem claim_C7_account_number_format (current_date : List Char)
    (sequence : ℕ) (random_chars : List Char)
    (hdate_len : current_date.length = 8)
    (_hdate_digits : ∀ c ∈ current_date, c ∈ digitChars)
    (_hseq_lo : 1 ≤ sequence) (hseq_hi : sequence ≤ 99999)
    (hrand_len : random_chars.length = 3)
    (_hrand : ∀ c ∈ random_chars, c ∈ ascii_uppercase ++ digitChars) :
    (generate_account_number current_date sequence random_chars).length = 16
    ∧ (generate_account_number current_date sequence random_chars).take 8
        = current_date
    ∧ ((generate_account_number current_date sequence random_chars).drop 8
        ).take 5 = pad5 sequence
    ∧ (pad5 sequence).length = 5
    ∧ (∀ c ∈ pad5 sequence, c ∈ digitChars)
    ∧ (generate_account_number current_date sequence random_chars).drop 13
        = random_chars := by
  have hpad : (pad5 sequence).length = 5 := pad5_length sequence hseq_hi
  unfold generate_account_number
  refine ⟨?_, ?_, ?_, hpad, fun c hc => pad5_mem sequence c hc, ?_⟩
  · simp only [List.length_append]
    omega
  · rw [List.append_assoc, ← hdate_len, List.take_left]
  · rw [List.append_assoc, ← hdate_len, List.drop_left, ← hpad,
      List.take_left]
  · have h13 : (current_date ++ pad5 sequence).length = 13 := by
      rw [List.length_append]
      omega
    rw [← h13, List.drop_left]

/-- Witness for claim C7 at the spec's example inputs: date 20231215,
sequence 1, random suffix XY9 yield the 16-character number
2023121500001XY9. -/
theorem claim_C7_witness :
    (['2', '0', '2', '3', '1', '2', '1', '5'] : List Char).length = 8
    ∧ (∀ c ∈ (['2', '0', '2', '3', '1', '2', '1', '5'] : List Char),
        c ∈ digitChars)
    ∧ 1 ≤ 1 ∧ 1 ≤ 99999
    ∧ (['X', 'Y', '9'] : List Char).length = 3
    ∧ (∀ c ∈ (['X', 'Y', '9'] : List Char),
        c ∈ ascii_uppercase ++ digitChars)
    ∧ (generate_account_number ['2', '0', '2', '3', '1', '2', '1', '5'] 1
        ['X', 'Y', '9']).length = 16
    ∧ (generate_account_number ['2', '0', '2', '3', '1', '2', '1', '5'] 1
        ['X', 'Y', '9']).take 8 = ['2', '0', '2', '3', '1', '2', '1', '5']
    ∧ ((generate_account_number ['2', '0', '2', '3', '1', '2', '1', '5'] 1
        ['X', 'Y', '9']).drop 8).take 5 = pad5 1
    ∧ (pad5 1).length = 5
    ∧ (∀ c ∈ pad5 1, c ∈ digitChars)
    ∧ (generate_account_number ['2', '0', '2', '3', '1', '2', '1', '5'] 1
        ['X', 'Y', '9']).drop 13 = ['X', 'Y', '9'] := by
  have h := claim_C7_account_number_format
    ['2', '0', '2', '3', '1', '2', '1', '5'] 1 ['X', 'Y', '9']
    (by decide) (by decide) (by decide) (by decide) (by decide) (by decide)
  exact ⟨by decide, by decide, by decide, by decide, by decide, by decide,
    h.1, h.2.1, h.2.2.1, h.2.2.2.1, h.2.2.2.2.1, h.2.2.2.2.2⟩

/- ### Dollar-to-cents conversion (`app/models/schemas.py`)

Python floats are IEEE-754 binary64 values.  A positive double is modelled
exactly as a pair `(m, e) : ℕ × ℤ` denoting the rational `m / 2 ^ (52 - e)`
(for the values arising here, `2 ^ 52 ≤ m ≤ 2 ^ 53` and `e ≤ 52`).  Rounding
a positive rational `num / den` to the nearest double (ties to even) is
computed with exact integer arithmetic; fuel 64 on the exponent search covers
every magnitude the schemas can see. -/

/-- `⌊log2 (num / den)⌋` for `0 < den ≤ num` (fuel-bounded doubling). -/
def ilog2Down : ℕ → ℕ → ℕ → ℕ
  | 0, _, _ => 0
  | Nat.succ fuel, num, den =>
      if num < 2 * den then 0 else ilog2Down fuel num (2 * den) + 1

/-- `-⌊log2 (num / den)⌋` for `0 < num < den`: the least `k` with
`den ≤ num * 2 ^ k` (fuel-bounded doubling). -/
def ilog2Up : ℕ → ℕ → ℕ → ℕ
  | 0, _, _ => 0
  | Nat.succ fuel, num, den =>
      if den ≤ num then 0 else ilog2Up fuel (2 * num) den + 1

/-- `⌊log2 (num / den)⌋` of a positive rational. -/
def floatExp (num den : ℕ) : ℤ :=
  if den ≤ num then (ilog2Down 64 num den : ℤ) else -(ilog2Up 64 num den : ℤ)

/-- Nearest integer to `num / den` with ties to even (IEEE default
rounding), by exact integer arithmetic. -/
def rndNE (num den : ℕ) : ℕ :=
  let q := num / den
  let r := num % den
  if 2 * r < den then q
  else if den < 2 * r then q + 1
  else if q % 2 = 0 then q else q + 1

/-- The binary64 double nearest to the positive rational `num / den`
(CPython parses decimal float literals to exactly this value). -/
def toDouble (num den : ℕ) : ℕ × ℤ :=
  let e := floatExp num den
  (rndNE (num * 2 ^ (52 - e).toNat) den, e)

/-- IEEE binary64 multiplication of a positive double by 100: the exact
product `m * 100 / 2 ^ (52 - e)` re-rounded to the nearest double. -/
def doubleMul100 (d : ℕ × ℤ) : ℕ × ℤ :=
  toDouble (d.1 * 100) (2 ^ (52 - d.2).toNat)

/-- Python's `int()` on a positive double: truncation toward zero. -/
def doubleToInt (d : ℕ × ℤ) : ℕ :=
  d.1 / 2 ^ (52 - d.2).toNat

/-- `TransferCreate.get_amount_cents` from `app/models/schemas.py`:
`int(self.amount * 100)` on the stored float. -/
def get_amount_cents (amount : ℕ × ℤ) : ℕ :=
  doubleToInt (doubleMul100 amount)

/-- `AccountCreate.get_initial_deposit_cents` from `app/models/schemas.py`:
`int(self.initial_deposit * 100)` on the stored float. -/
def get_initial_deposit_cents (initial_deposit : ℕ × ℤ) : ℕ :=
  doubleToInt (doubleMul100 initial_deposit)

/- ### Claim C4 -/

/-- State after creating account 1 (deposit 100.99) for customer 1. -/
def dbC4a : DB :=
  { customers := [1]
    accounts := [⟨1, [], 1⟩]
    transactions := [⟨1, TransactionType.DEPOSIT, ""⟩]
    entries := [⟨1, 1, 1, EntryType.CREDIT, 10099⟩] }

/-- State after also creating the destination account 2 (deposit 1.00). -/
def dbC4b : DB :=
  { customers := [1]
    accounts := [⟨1, [], 1⟩, ⟨2, [], 1⟩]
    transactions := [⟨1, TransactionType.DEPOSIT, ""⟩,
                     ⟨2, TransactionType.DEPOSIT, ""⟩]
    entries := [⟨1, 1, 1, EntryType.CREDIT, 10099⟩,
                ⟨2, 2, 2, EntryType.CREDIT, 100⟩] }

/-- State after transferring 50.99 out of account 1. -/
def dbC4c : DB :=
  { customers := [1]
    accounts := [⟨1, [], 1⟩, ⟨2, [], 1⟩]
    transactions := [⟨1, TransactionType.DEPOSIT, ""⟩,
                     ⟨2, TransactionType.DEPOSIT, ""⟩,
                     ⟨3, TransactionType.TRANSFER, ""⟩]
    entries := [⟨1, 1, 1, EntryType.CREDIT, 10099⟩,
                ⟨2, 2, 2, EntryType.CREDIT, 100⟩,
                ⟨3, 3, 1, EntryType.DEBIT, 5099⟩,
                ⟨4, 3, 2, EntryType.CREDIT, 5099⟩] }

/-- Claim C4: depositing 100.99 dollars into a fresh account and then
transferring out 50.99 dollars leaves exactly 5000 cents (50.00 dollars).
The literal 100.99 parses to the double nearest 10099/100 and converts to
exactly 10099 cents; 50.99 converts to exactly 5099 cents (the float
round-trip through `int(x * 100)` introduces no rounding error on these
inputs), and the integer-cents ledger arithmetic gives 10099 − 5099 = 5000. -/
theorem claim_C4_no_rounding_error :
    get_initial_deposit_cents (toDouble 10099 100) = 10099
    ∧ get_amount_cents (toDouble 5099 100) = 5099
    ∧ create_account ⟨[1], [], [], []⟩ 1
        ((get_initial_deposit_cents (toDouble 10099 100) : ℤ)) [] ""
        = Except.ok (dbC4a, ⟨1, [], 1⟩)
    ∧ create_account dbC4a 1 100 [] "" = Except.ok (dbC4b, ⟨2, [], 1⟩)
    ∧ create_transfer dbC4b 1 2 ((get_amount_cents (toDouble 5099 100) : ℤ))
        "" = Except.ok (dbC4c, ⟨3, TransactionType.TRANSFER, ""⟩)
    ∧ dbC4c.balance_cents 1 = 5000 :=
  ⟨by decide, by decide, by rfl, by rfl, by rfl, by decide⟩

/- ### Claim C8 -/

/-- State after a transfer of the schema-accepted amount 0.001 dollars
(which converts to 0 cents) from account 1 to account 2 of `dbW`. -/
def dbC8 : DB :=
  { customers := [1]
    accounts := [⟨1, [], 1⟩, ⟨2, [], 1⟩]
    transactions := [⟨1, TransactionType.DEPOSIT, ""⟩,
                     ⟨2, TransactionType.DEPOSIT, ""⟩,
                     ⟨3, TransactionType.TRANSFER, ""⟩]
    entries := [⟨1, 1, 1, EntryType.CREDIT, 10000⟩,
                ⟨2, 2, 2, EntryType.CREDIT, 500⟩,
                ⟨3, 3, 1, EntryType.DEBIT, 0⟩,
                ⟨4, 3, 2, EntryType.CREDIT, 0⟩] }

/-- Claim C8 fails on the code: the dollar amount 0.001 is accepted by the
input schemas (its parsed double is positive, so `Field(gt=0)` passes), yet
`int(amount * 100)` yields 0, and `create_transfer` then commits a DEBIT and
a CREDIT ledger entry whose `amount_cents` is 0, not strictly positive.  The
same conversion is used for `AccountCreate.initial_deposit`. -/
theorem claim_C8_zero_cent_entries :
    0 < (toDouble 1 1000).1
    ∧ get_amount_cents (toDouble 1 1000) = 0
    ∧ get_initial_deposit_cents (toDouble 1 1000) = 0
    ∧ create_transfer dbW 1 2 ((get_amount_cents (toDouble 1 1000) : ℤ)) ""
        = Except.ok (dbC8, ⟨3, TransactionType.TRANSFER, ""⟩)
    ∧ (dbC8.entries.filter (fun e => e.transaction_id = 3)).map
        (fun e => e.amount_cents) = [0, 0] :=
  ⟨by decide, by decide, by decide, by rfl, by decide⟩
